import Mathlib

/-!
Verification of the xplain model-acquisition and caching subsystem.

Shallow embedding of the Python sources:
  - `src/xplain_package/models/blip.py`   (resolve_model_source, BlipCaptioner.from_pretrained)
  - `src/xplain_package/models/registry.py` (get_device, get_model)
  - `src/xplain_package/inference/predict.py` (load_captioner, predict_caption, predict_captions)
  - `src/xplain_package/io/gcs.py`        (parse_gs_uri, download_gcs_folder)
  - `src/xplain_package/config.py`        (Settings)
  - `src/xplain_package/utils/exceptions.py`

Python exceptions are modelled as values of an error inductive; fallible
code returns `Except`. The filesystem, the torch library and the
transformers library are external collaborators and are modelled as
explicit parameters (predicates / fallible functions) threaded through the
embedded code.
-/

namespace Xplain

/-- Decidable equality for `Except`, needed to evaluate embedded
fallible functions on concrete inputs. -/
instance {ε α : Type} [DecidableEq ε] [DecidableEq α] : DecidableEq (Except ε α) := fun x y =>
  match x, y with
  | .ok a, .ok b =>
    if h : a = b then .isTrue (by rw [h]) else .isFalse (by simp [h])
  | .error a, .error b =>
    if h : a = b then .isTrue (by rw [h]) else .isFalse (by simp [h])
  | .ok _, .error _ => .isFalse (by simp)
  | .error _, .ok _ => .isFalse (by simp)

/-- Python exception values raised (or defined) by the package, one
constructor per distinct raise site / exception class, carrying the
data that the exception message interpolates. -/
inductive PyErr where
  /-- FileNotFoundError "LOCAL_MODEL_DIR is empty. ..." (blip.py, resolve_model_source rule 1). -/
  | fileNotFoundEmptyDir : PyErr
  /-- FileNotFoundError "No valid local pretrained model found in: {dir}. ..." (blip.py, case 3). -/
  | fileNotFoundNoModel (dir : String) : PyErr
  /-- FileNotFoundError "BLIP model folder not found locally: {path}. ..." (blip.py, from_pretrained). -/
  | fileNotFoundFolder (path : String) : PyErr
  /-- RuntimeError "Multiple pretrained model folders found inside {dir}: {candidates}. ..." (blip.py, case 2). -/
  | runtimeErrorMultiple (dir : String) (candidates : List String) : PyErr
  /-- InvalidInputError "image_path is empty. Provide a valid image path." (predict.py). -/
  | invalidInputEmptyPath : PyErr
  /-- InvalidInputError "image_paths is empty. Provide at least one image path." (predict.py). -/
  | invalidInputEmptyList : PyErr
  /-- InvalidInputError "One of the image paths is empty." (predict.py). -/
  | invalidInputEmptyItem : PyErr
  /-- InvalidInputError raised by load_image (transforms.py) for an unreadable file. -/
  | invalidInputBadImage (path : String) : PyErr
  /-- RuntimeError raised by torch.device on an unrecognized device string. -/
  | torchInvalidDevice (s : String) : PyErr
  /-- ModelLoadError, defined in utils/exceptions.py ("Raised when a model cannot be loaded"). -/
  | modelLoadError (msg : String) : PyErr
  /-- An exception propagating unwrapped out of a third-party library call (transformers, PIL). -/
  | libError (msg : String) : PyErr
  /-- NotImplementedError "Unknown MODEL_FAMILY=..." (registry.py). -/
  | notImplementedFamily (family : String) : PyErr
  deriving Repr, DecidableEq

/-- Filesystem view used by the resolver: `os.path.isdir`, `os.path.isfile`
and `os.listdir` as supplied by the environment. -/
structure FS where
  isDir : String → Bool
  isFile : String → Bool
  listdir : String → List String

/-- Path concatenation, modelling `os.path.join(a, b)` for the relative
child names produced by `os.listdir` (the only shape used by the code). -/
def joinPath (a b : String) : String := a ++ "/" ++ b

/-- Child folders of `dir` that contain the manifest `config.json`
(the loop body of resolve_model_source case 2 in blip.py): for each
`child` in `os.listdir(dir)`, keep `dir/child` when it is a directory and
`dir/child/config.json` is a file, preserving listdir order. -/
def candidateFolders (fs : FS) (dir : String) : List String :=
  ((fs.listdir dir).map (fun child => joinPath dir child)).filter
    (fun cp => fs.isDir cp && fs.isFile (joinPath cp "config.json"))

/-- Embedding of `resolve_model_source` (blip.py lines 200-297): strictly
local resolution.  Rule 1: empty dir is a fatal configuration error.
Rule 2: if `local_model_dir` itself holds `config.json` return it.
Rule 3: otherwise search one level down; one candidate is returned,
several raise RuntimeError with the full candidate list, none falls
through to the final FileNotFoundError. -/
def resolve_model_source (fs : FS) (local_model_dir : String) : Except PyErr String :=
  if local_model_dir = "" then
    .error .fileNotFoundEmptyDir
  else if fs.isDir local_model_dir && fs.isFile (joinPath local_model_dir "config.json") then
    .ok local_model_dir
  else if fs.isDir local_model_dir then
    match candidateFolders fs local_model_dir with
    | [c] => .ok c
    | [] => .error (.fileNotFoundNoModel local_model_dir)
    | c1 :: c2 :: rest => .error (.runtimeErrorMultiple local_model_dir (c1 :: c2 :: rest))
  else
    .error (.fileNotFoundNoModel local_model_dir)

/-- Claim C1: for every configured local directory, resolve follows the
exact documented order — unset/empty directory fails with the
ModelNotFound kind (FileNotFoundError); a direct manifest in the
directory returns it; otherwise among the immediate subdirectories
containing the manifest exactly one candidate is returned, zero fail
with ModelNotFound, and two or more fail with the AmbiguousModel kind
(RuntimeError) carrying the complete candidate list. -/
theorem resolve_model_source_order (fs : FS) (dir : String) :
    (dir = "" → resolve_model_source fs dir = .error .fileNotFoundEmptyDir) ∧
    (dir ≠ "" → fs.isDir dir = true → fs.isFile (joinPath dir "config.json") = true →
      resolve_model_source fs dir = .ok dir) ∧
    (∀ c, dir ≠ "" → fs.isFile (joinPath dir "config.json") = false →
      fs.isDir dir = true → candidateFolders fs dir = [c] →
      resolve_model_source fs dir = .ok c) ∧
    (dir ≠ "" → fs.isFile (joinPath dir "config.json") = false →
      fs.isDir dir = true → candidateFolders fs dir = [] →
      resolve_model_source fs dir = .error (.fileNotFoundNoModel dir)) ∧
    (dir ≠ "" → fs.isFile (joinPath dir "config.json") = false →
      fs.isDir dir = true → 2 ≤ (candidateFolders fs dir).length →
      resolve_model_source fs dir = .error (.runtimeErrorMultiple dir (candidateFolders fs dir))) := by
  refine ⟨fun h => by simp [resolve_model_source, h], ?_, ?_, ?_, ?_⟩
  · intro h hd hf
    simp [resolve_model_source, h, hd, hf]
  · intro c h hf hd hc
    simp [resolve_model_source, h, hd, hf, hc]
  · intro h hf hd hc
    simp [resolve_model_source, h, hd, hf, hc]
  · intro h hf hd hlen
    match hc : candidateFolders fs dir with
    | [] => rw [hc] at hlen; simp at hlen
    | [c] => rw [hc] at hlen; simp at hlen
    | c1 :: c2 :: rest =>
      simp [resolve_model_source, h, hd, hf, hc]

/-- Concrete filesystem with two sibling model folders under "m",
each holding a manifest. -/
def fsAmbig : FS :=
  { isDir := fun p => p == "m" || p == "m/a" || p == "m/b"
    isFile := fun p => p == "m/a/config.json" || p == "m/b/config.json"
    listdir := fun p => if p == "m" then ["a", "b"] else [] }

/-- Witness for C1: on `fsAmbig` the resolver fails with the ambiguity
error listing both candidate folders. -/
theorem resolve_model_source_order_witness :
    resolve_model_source fsAmbig "m" =
      .error (.runtimeErrorMultiple "m" (candidateFolders fsAmbig "m")) :=
  (resolve_model_source_order fsAmbig "m").2.2.2.2
    (by decide) (by decide) (by decide) (by decide)

/-! ### Configuration (config.py) -/

/-- Embedding of `Settings` (config.py): the frozen dataclass with the
shipped defaults (the `os.getenv` fallbacks). `GCS_MODEL_URI` is
`Option` because the field is `None` when the variable is unset. -/
structure Settings where
  MODEL_FAMILY : String := "blip"
  HF_MODEL_NAME : String := "Salesforce/blip-image-captioning-base"
  LOCAL_MODEL_DIR : String := "models"
  MODEL_FILENAME : String := "blip_captioning.pt"
  GCS_MODEL_URI : Option String := none
  ALLOW_HF_FALLBACK : Bool := false
  DEVICE : String := "auto"
  MAX_NEW_TOKENS : Nat := 80
  BEAM_SIZE : Nat := 3
  LOG_LEVEL : String := "INFO"

/-- Singleton `settings` object with every default as shipped. -/
def defaultSettings : Settings := {}

/-! ### Device selection (registry.py) -/

/-- Device type names recognized by `torch.device` (torch library
boundary, from torch's documented device-string grammar). "auto" is not
among them. -/
def torchDeviceTypes : List String :=
  ["cpu", "cuda", "ipu", "xpu", "mkldnn", "opengl", "opencl", "ideep", "hip",
   "ve", "fpga", "ort", "xla", "lazy", "vulkan", "mps", "meta", "hpu", "mtia",
   "privateuseone"]

/-- Device type part of a device string: the characters before the
first ":" (the whole string when there is none). -/
def deviceType (s : String) : String :=
  String.mk (s.toList.takeWhile (fun c => c ≠ ':'))

/-- Modelling of the torch library boundary: `torch.device(s)` accepts a
recognized device type, optionally followed by ":index", and raises
RuntimeError on any other string. -/
def torch_device (s : String) : Except PyErr String :=
  if torchDeviceTypes.contains (deviceType s) then .ok s
  else .error (.torchInvalidDevice s)

/-- Embedding of `get_device` (registry.py lines 53-85):
`device_str = getattr(settings, "DEVICE", None)` (always present on the
Settings dataclass); a truthy (non-empty) value is passed to
`torch.device` verbatim, otherwise CUDA is probed with a CPU fallback.
`cuda_available` models `torch.cuda.is_available()`. -/
def get_device (settings : Settings) (cuda_available : Bool) : Except PyErr String :=
  if settings.DEVICE ≠ "" then torch_device settings.DEVICE
  else .ok (if cuda_available then "cuda" else "cpu")

/-- Claim C8 (code_bug evaluation): with the shipped default
`DEVICE = "auto"`, `get_device` does NOT take the probe path — whatever
the accelerator probe would report, it hands the literal string "auto"
to `torch.device`, which rejects it — contradicting config.py's own
"auto | cpu | cuda" documentation; explicit "cpu"/"cuda" values are
honoured and only an absent/empty DEVICE probes. -/
theorem get_device_auto_is_literal :
    (get_device defaultSettings true = .error (.torchInvalidDevice "auto")) ∧
    (get_device defaultSettings false = .error (.torchInvalidDevice "auto")) ∧
    (get_device { DEVICE := "cpu" } true = .ok "cpu") ∧
    (get_device { DEVICE := "cuda" } false = .ok "cuda") ∧
    (get_device { DEVICE := "" } true = .ok "cuda") ∧
    (get_device { DEVICE := "" } false = .ok "cpu") := by
  refine ⟨by decide, by decide, by decide, by decide, by decide, by decide⟩

/-! ### Engine loading (blip.py BlipCaptioner.from_pretrained) -/

/-- Decoded in-memory image handle (PIL image), kept abstract. -/
def Img := String

/-- External-library boundary for the loader: `os.path.isdir`, the two
transformers constructors (`AutoProcessor.from_pretrained` and
`BlipForConditionalGeneration.from_pretrained`, both with
`local_files_only=True`), and the generation capability of the loaded
processor+model pair. Library failures carry their message. -/
structure LibEnv where
  isdir : String → Bool
  processorLoad : String → Except String Unit
  modelLoad : String → Except String Unit
  generateFn : String → Img → Nat → Nat → Bool → Except String String

/-- Loaded inference wrapper (the `BlipCaptioner` dataclass): generation
capability bound to a device. -/
structure Captioner where
  generate : Img → Nat → Nat → Bool → Except PyErr String
  device : String

/-- Embedding of `BlipCaptioner.from_pretrained` (blip.py lines 86-143):
a non-directory source raises FileNotFoundError carrying the path; then
the processor and the model are constructed strictly locally, any
library exception propagating unwrapped; on success the wrapper is
returned in inference mode on the given device. -/
def from_pretrained (env : LibEnv) (model_source device : String) : Except PyErr Captioner :=
  if env.isdir model_source = false then
    .error (.fileNotFoundFolder model_source)
  else
    match env.processorLoad model_source with
    | .error e => .error (.libError e)
    | .ok _ =>
      match env.modelLoad model_source with
      | .error e => .error (.libError e)
      | .ok _ =>
        .ok { generate := fun img ml nb ds =>
                (env.generateFn model_source img ml nb ds).mapError .libError
              device := device }

/-- Test for the ModelLoadError exception class of utils/exceptions.py. -/
def isModelLoadError : Except PyErr Captioner → Bool
  | .error (.modelLoadError _) => true
  | _ => false

/-- Library environment in which the model folder is absent. -/
def envNoFolder : LibEnv :=
  { isdir := fun _ => false
    processorLoad := fun _ => .ok ()
    modelLoad := fun _ => .ok ()
    generateFn := fun _ _ _ _ _ => .ok "caption" }

/-- Counterexample to claim C7: on a non-existent folder the loader
raises FileNotFoundError (carrying the path), not a ModelLoadError —
`ModelLoadError` is defined in utils/exceptions.py but raised nowhere. -/
theorem from_pretrained_not_modelLoadError :
    from_pretrained envNoFolder "missing" "cpu" = .error (.fileNotFoundFolder "missing") ∧
    isModelLoadError (from_pretrained envNoFolder "missing" "cpu") = false := by
  exact ⟨rfl, rfl⟩

/-- Claim C7 as amended: every failure of engine construction
propagates with the attempted path only through the exception that is
actually raised — FileNotFoundError carrying the path for a missing
folder, the library's own exception (unwrapped) for processor/model
construction failures — and the result is never the ModelLoadError
class. -/
theorem from_pretrained_failure_modes (env : LibEnv) (src dev : String) :
    (env.isdir src = false →
      from_pretrained env src dev = .error (.fileNotFoundFolder src)) ∧
    (∀ e, env.isdir src = true → env.processorLoad src = .error e →
      from_pretrained env src dev = .error (.libError e)) ∧
    (∀ e, env.isdir src = true → env.processorLoad src = .ok () →
      env.modelLoad src = .error e →
      from_pretrained env src dev = .error (.libError e)) ∧
    isModelLoadError (from_pretrained env src dev) = false := by
  refine ⟨?_, ?_, ?_, ?_⟩
  · intro h; simp [from_pretrained, h]
  · intro e h hp; simp [from_pretrained, h, hp]
  · intro e h hp hm; simp [from_pretrained, h, hp, hm]
  · cases h : env.isdir src with
    | false => simp [from_pretrained, isModelLoadError, h]
    | true =>
      cases hp : env.processorLoad src with
      | error e => simp [from_pretrained, isModelLoadError, h, hp]
      | ok u =>
        cases hm : env.modelLoad src with
        | error e => simp [from_pretrained, isModelLoadError, h, hp, hm]
        | ok v => simp [from_pretrained, isModelLoadError, h, hp, hm]

/-- Witness for the amended C7: a concrete missing-folder failure is the
FileNotFoundError case. -/
theorem from_pretrained_failure_modes_witness :
    from_pretrained envNoFolder "m2" "cpu" = .error (.fileNotFoundFolder "m2") :=
  (from_pretrained_failure_modes envNoFolder "m2" "cpu").1 rfl

/-! ### Model cache (predict.py, sequential semantics)

`_MODEL` is the module-level global; `load_captioner` checks it and, when
empty, runs `get_model(settings)` and stores the result.  The loader is
modelled as a function of the attempt number (how many times `get_model`
has been invoked so far), so that distinct attempts can have distinct
outcomes (a transient failure followed by a success); the `loads`
counter of the state both drives it and counts constructor invocations. -/

/-- Cache state: the `_MODEL` global plus a ghost counter of completed
`get_model` invocations. -/
structure CacheState (M : Type) where
  model : Option M
  loads : Nat
  deriving Repr, DecidableEq

/-- Embedding of `load_captioner` (predict.py lines 48-73) in sequential
(single-caller-at-a-time) semantics: return the cached instance when
present; otherwise invoke `get_model` once, cache the result on success,
and leave the cache untouched (still empty) when it raises. -/
def load_captioner {M : Type} (loader : Nat → Except PyErr M) (s : CacheState M) :
    Except PyErr M × CacheState M :=
  match s.model with
  | some m => (.ok m, s)
  | none =>
    match loader s.loads with
    | .ok m => (.ok m, ⟨some m, s.loads + 1⟩)
    | .error e => (.error e, ⟨none, s.loads + 1⟩)

/-- Iterated calls to `load_captioner`: the list of results of `n`
successive calls together with the final cache state. -/
def load_captioner_times {M : Type} (loader : Nat → Except PyErr M) :
    Nat → CacheState M → List (Except PyErr M) × CacheState M
  | 0, s => ([], s)
  | n + 1, s =>
    let r := load_captioner loader s
    let rs := load_captioner_times loader n r.2
    (r.1 :: rs.1, rs.2)

/-- Claim C3: when the load sequence fails, the error propagates to the
caller, the cache is left Empty (the failed attempt does not populate
it), and the next call re-runs the full load from scratch — in
particular a subsequent attempt that succeeds populates the cache. -/
theorem load_captioner_failure_retries {M : Type} (loader : Nat → Except PyErr M)
    (s : CacheState M) (e : PyErr) :
    s.model = none → loader s.loads = .error e →
    load_captioner loader s = (.error e, ⟨none, s.loads + 1⟩) ∧
    (∀ m : M, loader (s.loads + 1) = .ok m →
      load_captioner loader (⟨none, s.loads + 1⟩ : CacheState M) =
        (.ok m, ⟨some m, s.loads + 2⟩)) := by
  intro hs hl
  constructor
  · simp [load_captioner, hs, hl]
  · intro m hm
    simp [load_captioner, hm]

/-- Witness for C3: a loader that fails on its first attempt and
succeeds on its second. -/
theorem load_captioner_failure_retries_witness :
    load_captioner (fun k => if k = 0 then .error .fileNotFoundEmptyDir else .ok 7)
        (⟨none, 0⟩ : CacheState Nat) =
      (.error .fileNotFoundEmptyDir, ⟨none, 1⟩) ∧
    load_captioner (fun k => if k = 0 then .error .fileNotFoundEmptyDir else .ok 7)
        (⟨none, 1⟩ : CacheState Nat) =
      (.ok 7, ⟨some 7, 2⟩) := by
  have h := load_captioner_failure_retries
      (fun k => if k = 0 then .error .fileNotFoundEmptyDir else .ok (7 : Nat))
      (⟨none, 0⟩ : CacheState Nat) .fileNotFoundEmptyDir rfl rfl
  exact ⟨h.1, h.2 7 rfl⟩

/-- Claim C4: once the cache is Ready with instance `m`, `n` further
calls to `load_captioner` all return exactly that instance and the state
(including the invocation counter) is unchanged — zero additional
constructor invocations. -/
theorem load_captioner_idempotent {M : Type} (loader : Nat → Except PyErr M)
    (s : CacheState M) (m : M) (n : Nat) :
    s.model = some m →
    load_captioner_times loader n s = (List.replicate n (.ok m), s) := by
  intro hs
  induction n with
  | zero => simp [load_captioner_times]
  | succ k ih =>
    simp [load_captioner_times, load_captioner, hs, ih, List.replicate_succ]

/-- Witness for C4: three calls on a Ready cache holding instance 5
yield three identical results and leave the state untouched. -/
theorem load_captioner_idempotent_witness :
    load_captioner_times (fun _ => .error .fileNotFoundEmptyDir) 3
        (⟨some 5, 1⟩ : CacheState Nat) =
      (List.replicate 3 (.ok 5), ⟨some 5, 1⟩) :=
  load_captioner_idempotent (fun _ => .error .fileNotFoundEmptyDir)
    (⟨some 5, 1⟩ : CacheState Nat) 5 3 rfl

/-! ### Model cache under interleaving (claim C2)

`load_captioner` holds no lock: its check of `_MODEL` and its later
write are separate steps, and `get_model` (filesystem + model
construction, which releases the interpreter lock during I/O) runs
between them.  Each thread is therefore modelled with two atomic steps:
`check` reads the global and either returns the cached instance or
commits to loading; `load` constructs a fresh instance (counted) and
writes it.  A schedule is the order in which the two threads take
steps. -/

/-- Program counter of one caller of `load_captioner`. -/
inductive TPC where
  | check : TPC
  | load : TPC
  | ret (m : Nat) : TPC
  deriving Repr, DecidableEq

/-- Global cache plus the two callers; `constructed` counts Captioner
constructions (`get_model` completions). -/
structure RaceState where
  cache : Option Nat
  constructed : Nat
  t1 : TPC
  t2 : TPC
  deriving Repr, DecidableEq

/-- One step of one caller: the unlocked check-then-load body of
`load_captioner`. `fresh` is the instance this caller's `get_model`
would construct. -/
def threadStep (fresh : Nat) (cache : Option Nat) (constructed : Nat) :
    TPC → Option Nat × Nat × TPC
  | .check =>
    match cache with
    | some m => (cache, constructed, .ret m)
    | none => (cache, constructed, .load)
  | .load => (some fresh, constructed + 1, .ret fresh)
  | .ret m => (cache, constructed, .ret m)

/-- Scheduler step: `true` steps caller 1, `false` steps caller 2. -/
def schedStep (fresh1 fresh2 : Nat) (s : RaceState) (who : Bool) : RaceState :=
  if who then
    let r := threadStep fresh1 s.cache s.constructed s.t1
    ⟨r.1, r.2.1, r.2.2, s.t2⟩
  else
    let r := threadStep fresh2 s.cache s.constructed s.t2
    ⟨r.1, r.2.1, s.t1, r.2.2⟩

/-- Run a schedule from a state. -/
def runSched (fresh1 fresh2 : Nat) (sched : List Bool) (s : RaceState) : RaceState :=
  sched.foldl (schedStep fresh1 fresh2) s

/-- Both callers start at the check with an empty cache. -/
def initRace : RaceState := ⟨none, 0, .check, .check⟩

/-- Counterexample to claim C2: with the schedule in which both callers
pass the unlocked check before either writes, TWO Captioners are
constructed and the callers return DIFFERENT instances — there is no
mutual-exclusion gate in `load_captioner`. -/
theorem load_captioner_race_two_loads :
    runSched 1 2 [true, false, true, false] initRace =
      ⟨some 2, 2, .ret 1, .ret 2⟩ := by
  decide

/-- Claim C2 as amended: the cache is an unsynchronized check-then-store;
when the two callers do not interleave (either serial order), exactly one
construction happens and both observe that same single instance, and any
caller whose check finds the cache populated returns the cached instance
without constructing — but nothing guards the load path itself. -/
theorem load_captioner_serial_single_load (fresh1 fresh2 : Nat) :
    runSched fresh1 fresh2 [true, true, false] initRace =
      ⟨some fresh1, 1, .ret fresh1, .ret fresh1⟩ ∧
    runSched fresh1 fresh2 [false, false, true] initRace =
      ⟨some fresh2, 1, .ret fresh2, .ret fresh2⟩ ∧
    (∀ c k, threadStep fresh1 (some c) k .check = (some c, k, .ret c)) := by
  exact ⟨rfl, rfl, fun c k => rfl⟩

/-! ### Inference entry points (predict.py)

`load_image` (transforms.py) and the engine's generation are the
external boundary here and are passed in as fallible functions; the
cache is threaded explicitly through each call. -/

/-- Body of one iteration of the `predict_captions` loop (and the
single-image tail of `predict_caption`): per-item empty check, image
load, caption generation with the configured parameters. -/
def captionOne (cap : Captioner) (loadImage : String → Except PyErr Img)
    (maxLen beams : Nat) (path : String) : Except PyErr String :=
  if path = "" then .error .invalidInputEmptyItem
  else
    match loadImage path with
    | .error e => .error e
    | .ok img => cap.generate img maxLen beams false

/-- The `for path in image_paths` loop of `predict_captions`: captions
are accumulated in input order and the first exception aborts the whole
call. -/
def captionLoop (cap : Captioner) (loadImage : String → Except PyErr Img)
    (maxLen beams : Nat) : List String → Except PyErr (List String)
  | [] => .ok []
  | p :: rest =>
    match captionOne cap loadImage maxLen beams p with
    | .error e => .error e
    | .ok c =>
      match captionLoop cap loadImage maxLen beams rest with
      | .error e => .error e
      | .ok cs => .ok (c :: cs)

/-- Embedding of `predict_caption` (predict.py lines 76-129): reject an
empty path before touching the cache, then load (cached), load the
image, and generate with `MAX_NEW_TOKENS` (the attribute always exists
on Settings, so the `hasattr` fallback to 128 is dead), `BEAM_SIZE`, and
`do_sample=False`. -/
def predict_caption (loader : Nat → Except PyErr Captioner)
    (loadImage : String → Except PyErr Img) (settings : Settings)
    (s : CacheState Captioner) (image_path : String) :
    Except PyErr String × CacheState Captioner :=
  if image_path = "" then (.error .invalidInputEmptyPath, s)
  else
    match load_captioner loader s with
    | (.error e, s1) => (.error e, s1)
    | (.ok cap, s1) =>
      match loadImage image_path with
      | .error e => (.error e, s1)
      | .ok img =>
        (cap.generate img settings.MAX_NEW_TOKENS settings.BEAM_SIZE false, s1)

/-- Embedding of `predict_captions` (predict.py lines 132-195): reject a
`None` or empty list before touching the cache, load once, then run the
captioning loop over all paths. -/
def predict_captions (loader : Nat → Except PyErr Captioner)
    (loadImage : String → Except PyErr Img) (settings : Settings)
    (s : CacheState Captioner) (image_paths : Option (List String)) :
    Except PyErr (List String) × CacheState Captioner :=
  match image_paths with
  | none => (.error .invalidInputEmptyList, s)
  | some ps =>
    if ps.length = 0 then (.error .invalidInputEmptyList, s)
    else
      match load_captioner loader s with
      | (.error e, s1) => (.error e, s1)
      | (.ok cap, s1) =>
        (captionLoop cap loadImage settings.MAX_NEW_TOKENS settings.BEAM_SIZE ps, s1)

/-- Successful runs of the caption loop produce one caption per input,
in input order: output i is the caption of input i. -/
theorem captionLoop_ok (cap : Captioner) (li : String → Except PyErr Img)
    (ml bw : Nat) :
    ∀ (ps : List String) (cs : List String),
      captionLoop cap li ml bw ps = .ok cs →
      cs.length = ps.length ∧
      ∀ i (h : i < ps.length) (h2 : i < cs.length),
        captionOne cap li ml bw (ps.get ⟨i, h⟩) = .ok (cs.get ⟨i, h2⟩) := by
  intro ps
  induction ps with
  | nil =>
    intro cs h
    simp [captionLoop] at h
    subst h
    exact ⟨rfl, fun i h h2 => absurd h (by simp)⟩
  | cons p rest ih =>
    intro cs h
    unfold captionLoop at h
    cases h1 : captionOne cap li ml bw p with
    | error e => rw [h1] at h; exact absurd h (by simp)
    | ok c =>
      rw [h1] at h
      cases h2 : captionLoop cap li ml bw rest with
      | error e => rw [h2] at h; exact absurd h (by simp)
      | ok cs0 =>
        rw [h2] at h
        simp only [Except.ok.injEq] at h
        subst h
        obtain ⟨hlen, hget⟩ := ih cs0 h2
        refine ⟨by simp [hlen], ?_⟩
        intro i hi hi2
        match i with
        | 0 => simpa using h1
        | Nat.succ j =>
          simpa using hget j (by simpa using hi) (by simpa using hi2)

/-- If every input before `p` captions successfully and `p` itself
fails with `e`, the whole loop fails with `e` (no partial output). -/
theorem captionLoop_first_error (cap : Captioner) (li : String → Except PyErr Img)
    (ml bw : Nat) :
    ∀ (pre : List String) (p : String) (suf : List String) (e : PyErr),
      (∀ q ∈ pre, ∃ c, captionOne cap li ml bw q = .ok c) →
      captionOne cap li ml bw p = .error e →
      captionLoop cap li ml bw (pre ++ p :: suf) = .error e := by
  intro pre
  induction pre with
  | nil =>
    intro p suf e _ hp
    simp [captionLoop, hp]
  | cons q qre ih =>
    intro p suf e hall hp
    obtain ⟨c, hc⟩ := hall q (by simp)
    have hrest := ih p suf e (fun r hr => hall r (by simp [hr])) hp
    simp only [List.cons_append]
    unfold captionLoop
    rw [hc, hrest]

/-- Claim C5: with the cache delivering a captioner, `predict_captions`
on a non-empty list returns, on success, exactly one caption per input
in input order (output i is the caption of input i); and if any single
input fails (all earlier ones succeeding) the whole call fails with that
input's error — no partial result is returned. -/
theorem predict_captions_batch (loader : Nat → Except PyErr Captioner)
    (li : String → Except PyErr Img) (st : Settings) (s : CacheState Captioner)
    (ps : List String) (cap : Captioner) (s1 : CacheState Captioner) :
    load_captioner loader s = (.ok cap, s1) →
    (∀ cs, (predict_captions loader li st s (some ps)).1 = .ok cs →
      cs.length = ps.length ∧
      ∀ i (h : i < ps.length) (h2 : i < cs.length),
        captionOne cap li st.MAX_NEW_TOKENS st.BEAM_SIZE (ps.get ⟨i, h⟩) =
          .ok (cs.get ⟨i, h2⟩)) ∧
    (∀ (pre : List String) (p : String) (suf : List String) (e : PyErr),
      ps = pre ++ p :: suf →
      (∀ q ∈ pre, ∃ c, captionOne cap li st.MAX_NEW_TOKENS st.BEAM_SIZE q = .ok c) →
      captionOne cap li st.MAX_NEW_TOKENS st.BEAM_SIZE p = .error e →
      (predict_captions loader li st s (some ps)).1 = .error e) := by
  intro hload
  constructor
  · intro cs hcs
    rcases hps : ps with _ | ⟨p, rest⟩
    · rw [hps] at hcs
      simp [predict_captions] at hcs
    · rw [hps] at hcs
      simp only [predict_captions, List.length_cons, Nat.succ_ne_zero, if_neg, hload] at hcs
      exact hps ▸ captionLoop_ok cap li st.MAX_NEW_TOKENS st.BEAM_SIZE (p :: rest) cs (by simpa using hcs)
  · intro pre p suf e hps hall hp
    subst hps
    have hloop := captionLoop_first_error cap li st.MAX_NEW_TOKENS st.BEAM_SIZE pre p suf e hall hp
    have hlen : (pre ++ p :: suf).length ≠ 0 := by simp
    simp [predict_captions, hlen, hload, hloop]

/-- Concrete captioner echoing the decoded image as its caption. -/
def capEcho : Captioner :=
  { generate := fun img _ _ _ => .ok img
    device := "cpu" }

/-- Concrete image loader tagging the path. -/
def liTag : String → Except PyErr Img := fun p => .ok ("img:" ++ p)

/-- Witness for C5: a 2-element batch produces a 2-element output whose
second caption is the caption of the second input. -/
theorem predict_captions_batch_witness :
    (["img:a", "img:b"] : List String).length = (["a", "b"] : List String).length ∧
    captionOne capEcho liTag 80 3 "b" = .ok "img:b" := by
  have h := (predict_captions_batch (fun _ => .ok capEcho) liTag {}
      (⟨none, 0⟩ : CacheState Captioner) ["a", "b"] capEcho
      ⟨some capEcho, 1⟩ rfl).1 ["img:a", "img:b"] rfl
  exact ⟨h.1, h.2 1 (by decide) (by decide)⟩

/-- Claim C10: empty input at the public interface — an empty path to
`predict_caption`, a `None` or an empty list to `predict_captions` — is
rejected with the InvalidInputError kind before any model load or
generation is attempted: the returned cache state is exactly the input
state (its load counter included). -/
theorem predict_empty_input_rejected (loader : Nat → Except PyErr Captioner)
    (li : String → Except PyErr Img) (st : Settings) (s : CacheState Captioner) :
    predict_caption loader li st s "" = (.error .invalidInputEmptyPath, s) ∧
    predict_captions loader li st s none = (.error .invalidInputEmptyList, s) ∧
    predict_captions loader li st s (some []) = (.error .invalidInputEmptyList, s) :=
  ⟨rfl, rfl, rfl⟩

/-! ### URI parsing (gcs.py parse_gs_uri)

Python strings are modelled as `List Char` for the character-level
operations (`str.replace`, `str.split(sep, 1)`, slicing, `lstrip`),
wrapped back into `String` at the data-model level.  `str.replace`
removes every occurrence, scanning left to right; it is embedded with a
structural fuel argument (the string length) so that it evaluates in the
kernel. -/

/-- Removes `pat` from the front of `s` when it is literally there. -/
def stripPre : List Char → List Char → Option (List Char)
  | [], s => some s
  | _ :: _, [] => none
  | p :: ps, c :: cs => if p = c then stripPre ps cs else none

theorem stripPre_length :
    ∀ (p s r : List Char), stripPre p s = some r → r.length + p.length = s.length := by
  intro p
  induction p with
  | nil => intro s r h; simp [stripPre] at h; subst h; simp
  | cons x xs ih =>
    intro s r h
    cases s with
    | nil => simp [stripPre] at h
    | cons c cs =>
      unfold stripPre at h
      by_cases hx : x = c
      · rw [if_pos hx] at h
        have := ih cs r h
        simp only [List.length_cons]
        omega
      · rw [if_neg hx] at h
        exact absurd h (by simp)

theorem stripPre_append (p s : List Char) : stripPre p (p ++ s) = some s := by
  induction p with
  | nil => simp [stripPre]
  | cons x xs ih => simp [stripPre, ih]

/-- Whether `pat` occurs (as a contiguous run) anywhere in `s`. -/
def occursIn (pat : List Char) : List Char → Bool
  | [] => decide (pat = [])
  | c :: cs => (stripPre pat (c :: cs)).isSome || occursIn pat cs

/-- Left-to-right scan of `str.replace(pat, rep)` for a non-empty
pattern, with the fuel bounding the number of scan steps. -/
def replaceFuel (pat rep : List Char) : Nat → List Char → List Char
  | _, [] => []
  | 0, s => s
  | f + 1, c :: cs =>
    match stripPre pat (c :: cs) with
    | some rest => rep ++ replaceFuel pat rep f rest
    | none => c :: replaceFuel pat rep f cs

/-- Embedding of Python `s.replace(pat, rep)` for the non-empty patterns
the code uses: every non-overlapping occurrence of `pat` anywhere in `s`
is replaced, scanning left to right. -/
def replaceAll (pat rep s : List Char) : List Char :=
  if pat = [] then s else replaceFuel pat rep s.length s

theorem replaceFuel_not_occurs (pat rep : List Char) :
    ∀ (f : Nat) (s : List Char), s.length ≤ f → occursIn pat s = false →
      replaceFuel pat rep f s = s := by
  intro f
  induction f with
  | zero =>
    intro s _ _
    cases s with
    | nil => rfl
    | cons c cs => rfl
  | succ k ih =>
    intro s hlen hocc
    cases s with
    | nil => rfl
    | cons c cs =>
      unfold occursIn at hocc
      simp only [Bool.or_eq_false_iff] at hocc
      obtain ⟨h1, h2⟩ := hocc
      unfold replaceFuel
      cases hs : stripPre pat (c :: cs) with
      | some rest => rw [hs] at h1; simp at h1
      | none =>
        rw [ih cs (by simpa using Nat.le_of_succ_le_succ hlen) h2]

theorem replaceAll_not_occurs (pat rep s : List Char) (hne : pat ≠ [])
    (hocc : occursIn pat s = false) : replaceAll pat rep s = s := by
  unfold replaceAll
  rw [if_neg hne]
  exact replaceFuel_not_occurs pat rep s.length s (Nat.le_refl _) hocc

theorem replaceAll_strip (pat rest : List Char) (hne : pat ≠ [])
    (hocc : occursIn pat rest = false) :
    replaceAll pat [] (pat ++ rest) = rest := by
  unfold replaceAll
  rw [if_neg hne]
  cases hp : pat with
  | nil => exact absurd hp hne
  | cons x xs =>
    have hfuel : ((x :: xs) ++ rest).length = ((x :: xs) ++ rest).length - 1 + 1 := by
      simp
    rw [hfuel]
    show replaceFuel (x :: xs) [] (((x :: xs) ++ rest).length - 1 + 1)
        (x :: (xs ++ rest)) = rest
    unfold replaceFuel
    have hs : stripPre (x :: xs) (x :: (xs ++ rest)) = some rest := by
      have := stripPre_append (x :: xs) rest
      simpa using this
    rw [hs]
    have hres : rest.length ≤ ((x :: xs) ++ rest).length - 1 := by
      simp
    show [] ++ replaceFuel (x :: xs) [] ((x :: xs ++ rest).length - 1) rest = rest
    rw [replaceFuel_not_occurs (x :: xs) [] _ rest hres (hp ▸ hocc)]
    rfl

/-- Split at the FIRST occurrence of `sep` (Python `split(sep, 1)`):
`none` when `sep` does not occur. -/
def splitFirst (sep : Char) : List Char → Option (List Char × List Char)
  | [] => none
  | c :: cs =>
    if c = sep then some ([], cs)
    else
      match splitFirst sep cs with
      | none => none
      | some r => some (c :: r.1, r.2)

theorem splitFirst_append (sep : Char) (b p : List Char) (hb : sep ∉ b) :
    splitFirst sep (b ++ sep :: p) = some (b, p) := by
  induction b with
  | nil => simp [splitFirst]
  | cons c bs ih =>
    have hc : ¬ c = sep := by
      intro h; exact hb (by simp [h])
    have hbs : sep ∉ bs := fun h => hb (by simp [h])
    simp only [List.cons_append]
    unfold splitFirst
    rw [if_neg hc, ih hbs]

/-- The scheme string that `parse_gs_uri` removes. -/
def gsScheme : List Char := ['g', 's', ':', '/', '/']

/-- Embedding of `parse_gs_uri` (gcs.py lines 75-98) at character level:
remove every occurrence of "gs://" via `str.replace`, then split at the
first "/" into (bucket, key), the key being empty when no "/" remains. -/
def parse_gs_uri_chars (u : List Char) : List Char × List Char :=
  match splitFirst '/' (replaceAll gsScheme [] u) with
  | none => (replaceAll gsScheme [] u, [])
  | some r => r

/-- String-level wrapper of `parse_gs_uri`. -/
def parse_gs_uri (u : String) : String × String :=
  let r := parse_gs_uri_chars u.toList
  (String.mk r.1, String.mk r.2)

/-- Counterexample to claim C9: a scheme-less URI is silently accepted —
`parse_gs_uri` has no failure path at all, and on "my-bucket/models" it
just returns the pair instead of raising InvalidURI. -/
theorem parse_gs_uri_schemeless_accepted :
    parse_gs_uri "my-bucket/models" = ("my-bucket", "models") := by
  decide

/-- Claim C9 as amended: `parse_gs_uri` deletes every occurrence of
"gs://" from the URI and splits at the first "/": a well-formed
`gs://bucket/key` yields (bucket, key), and the same URI WITHOUT the
scheme yields the same pair — the scheme-less form is silently accepted,
never rejected. -/
theorem parse_gs_uri_scheme_optional (b p : List Char) :
    '/' ∉ b → occursIn gsScheme (b ++ '/' :: p) = false →
    parse_gs_uri_chars (gsScheme ++ (b ++ '/' :: p)) = (b, p) ∧
    parse_gs_uri_chars (b ++ '/' :: p) = (b, p) := by
  intro hb hocc
  have hne : gsScheme ≠ [] := by simp [gsScheme]
  constructor
  · unfold parse_gs_uri_chars
    rw [replaceAll_strip gsScheme (b ++ '/' :: p) hne hocc,
      splitFirst_append '/' b p hb]
  · unfold parse_gs_uri_chars
    rw [replaceAll_not_occurs gsScheme [] (b ++ '/' :: p) hne hocc,
      splitFirst_append '/' b p hb]


/-- Witness for the amended C9: both the gs:// form and the scheme-less
form of "my-bucket/models" parse to the same pair. -/
theorem parse_gs_uri_scheme_optional_witness :
    parse_gs_uri_chars (gsScheme ++ ("my-bucket".toList ++ '/' :: "models".toList)) =
      ("my-bucket".toList, "models".toList) ∧
    parse_gs_uri_chars ("my-bucket".toList ++ '/' :: "models".toList) =
      ("my-bucket".toList, "models".toList) :=
  parse_gs_uri_scheme_optional "my-bucket".toList "models".toList
    (by decide) (by decide)

/-! ### Remote fetch (gcs.py download_gcs_folder)

The local filesystem is modelled as an association list of (path,
content) pairs; GCS as a map from bucket name to its objects.
`mkdir(parents=True, exist_ok=True)` creates directories only and so
does not change the file map.  `blob.download_to_filename` writes
(overwrites) one file. -/

/-- Whether `pre` is a leading run of `s` (Python `startswith`, used by
the service to list blobs under a key). -/
def strStarts (pre s : String) : Bool := (stripPre pre.toList s.toList).isSome

/-- Python `s[n:]`. -/
def dropN (s : String) (n : Nat) : String := String.mk (s.toList.drop n)

/-- Python `s.lstrip("/")`. -/
def lstripSlash (s : String) : String :=
  String.mk (s.toList.dropWhile (fun c => c = '/'))

/-- Local destination of an object: `local_dir / (name[len(pref):].lstrip("/"))`
(gcs.py lines 143-145), pathlib join modelled as "/"-concatenation. -/
def targetPath (local_dir pref name : String) : String :=
  local_dir ++ "/" ++ lstripSlash (dropN name pref.length)

/-- Write one downloaded file, overwriting a colliding path. -/
def upsertFile (fs : List (String × String)) (path content : String) :
    List (String × String) :=
  if fs.any (fun e => e.1 == path) then
    fs.map (fun e => if e.1 == path then (path, content) else e)
  else fs ++ [(path, content)]

/-- Embedding of `download_gcs_folder` (gcs.py lines 104-153): parse the
URI, list the bucket's objects under the key (the `prefix=` filter of
`list_blobs`), ensure the target directory exists, and download each
object to its target path.  Nothing is deleted from `local_dir`. -/
def download_gcs_folder (gcs : String → List (String × String))
    (fs : List (String × String)) (gs_uri local_dir : String) :
    List (String × String) :=
  ((gcs (parse_gs_uri gs_uri).1).filter
      (fun o => strStarts (parse_gs_uri gs_uri).2 o.1)).foldl
    (fun acc o =>
      upsertFile acc (targetPath local_dir (parse_gs_uri gs_uri).2 o.1) o.2) fs

/-- Bucket contents for the stale-file scenario. -/
def gcsOneConfig : String → List (String × String) := fun b =>
  if b = "my-bucket" then [("models/config.json", "cfg")] else []

/-- Counterexample to claim C6: downloading into a `local_dir` that
already holds "models/stale.bin" leaves that stale file in place next to
the freshly downloaded artifact — nothing is cleared before the
download. -/
theorem download_gcs_folder_keeps_stale :
    download_gcs_folder gcsOneConfig [("models/stale.bin", "old")]
        "gs://my-bucket/models" "models" =
      [("models/stale.bin", "old"), ("models/config.json", "cfg")] := by
  decide

theorem upsertFile_mem_of_ne (fs : List (String × String))
    (path content q c : String) (hne : q ≠ path)
    (hmem : (path, content) ∈ fs) : (path, content) ∈ upsertFile fs q c := by
  unfold upsertFile
  by_cases hany : fs.any (fun e => e.1 == q)
  · rw [if_pos hany]
    have : (fun (e : String × String) => if e.1 == q then (q, c) else e)
        (path, content) = (path, content) := by
      simp only [beq_iff_eq]
      rw [if_neg (fun h => hne h.symm)]
    exact this ▸ List.mem_map_of_mem _ hmem
  · rw [if_neg hany]
    exact List.mem_append_left _ hmem

theorem foldl_upsert_mem (path content : String)
    (target : String × String → String) :
    ∀ (blobs : List (String × String)) (fs : List (String × String)),
      (path, content) ∈ fs →
      (∀ o ∈ blobs, target o ≠ path) →
      (path, content) ∈
        blobs.foldl (fun acc o => upsertFile acc (target o) o.2) fs := by
  intro blobs
  induction blobs with
  | nil => intro fs hmem _; simpa using hmem
  | cons o rest ih =>
    intro fs hmem hall
    simp only [List.foldl_cons]
    exact ih (upsertFile fs (target o) o.2)
      (upsertFile_mem_of_ne fs path content (target o) o.2 (hall o (by simp)) hmem)
      (fun q hq => hall q (by simp [hq]))

/-- Claim C6 as amended: `download_gcs_folder` does NOT clear `local_dir`
before downloading; every pre-existing file whose path is not the target
of one of the downloaded objects survives with its old content, so stale
and fresh artifacts can end up mixed in the same directory. -/
theorem download_gcs_folder_preserves (gcs : String → List (String × String))
    (fs : List (String × String)) (gs_uri local_dir path content : String) :
    (path, content) ∈ fs →
    (∀ o ∈ (gcs (parse_gs_uri gs_uri).1).filter
        (fun o => strStarts (parse_gs_uri gs_uri).2 o.1),
      targetPath local_dir (parse_gs_uri gs_uri).2 o.1 ≠ path) →
    (path, content) ∈ download_gcs_folder gcs fs gs_uri local_dir := by
  intro hmem hall
  exact foldl_upsert_mem path content
    (fun o => targetPath local_dir (parse_gs_uri gs_uri).2 o.1)
    ((gcs (parse_gs_uri gs_uri).1).filter
      (fun o => strStarts (parse_gs_uri gs_uri).2 o.1)) fs hmem hall

/-- Witness for the amended C6: the stale file of the counterexample
scenario is preserved by the download. -/
theorem download_gcs_folder_preserves_witness :
    ("models/stale.bin", "old") ∈
      download_gcs_folder gcsOneConfig [("models/stale.bin", "old")]
        "gs://my-bucket/models" "models" :=
  download_gcs_folder_preserves gcsOneConfig [("models/stale.bin", "old")]
    "gs://my-bucket/models" "models" "models/stale.bin" "old"
    (by decide) (by decide)

end Xplain
